import Mathlib

/-!
Verification of the project-scaffolding script `t.py`.

The script loads a JSON configuration, creates a project template by
invoking an external command, overlays configured files onto the project
tree, installs declared dependencies, and launches a development server
while monitoring its output.

This file gives a shallow embedding of the script in Lean: Python
strings become `String`, line-oriented subprocess output becomes
`List String`, console printing becomes an explicit action trace, the
filesystem becomes a finite map from paths to contents, and the
orchestration becomes pure functions parameterised by the outcomes of
the external commands (spawn success and exit codes).
-/

namespace Trial

/-! ## Python string primitives -/

/-- Characters removed by the Python `str.strip()` method
(ASCII whitespace, including vertical tab and form feed). -/
def isPySpace (c : Char) : Bool :=
  c == ' ' || c == '\t' || c == '\n' || c == '\r' || c == '\x0b' || c == '\x0c'

/-- List form of `str.strip()`: drop whitespace from both ends. -/
def pyStripList (cs : List Char) : List Char :=
  ((cs.dropWhile isPySpace).reverse.dropWhile isPySpace).reverse

/-- Embedding of the Python `str.strip()` method. -/
def pyStrip (s : String) : String :=
  ⟨pyStripList s.data⟩

/-- Substring test on character lists: true when `pat` occurs
contiguously inside the list. Embeds the Python `in` operator. -/
def listIsInfix (pat : List Char) : List Char → Bool
  | [] => pat.isEmpty
  | c :: rest => pat.isPrefixOf (c :: rest) || listIsInfix pat rest

/-- Embedding of the Python expression `sub in s` on strings. -/
def pyContains (sub s : String) : Bool :=
  listIsInfix sub.data s.data

/-- Embedding of the Python `sep.join(parts)` expression. -/
def pyJoin (sep : String) : List String → String
  | [] => ""
  | [s] => s
  | s :: rest => s ++ sep ++ pyJoin sep rest

theorem strData_append (a b : String) : (a ++ b).data = a.data ++ b.data := by
  cases a; cases b; rfl

/-- Buffer accumulated by `_monitor_process`: stripped nonempty lines
in read order, then the stripped final drain when it is nonempty. -/
def monitorBuffer : List String → String → List String
  | [], remaining => if remaining = "" then [] else [pyStrip remaining]
  | l :: rest, remaining =>
      if l = "" then monitorBuffer rest remaining
      else pyStrip l :: monitorBuffer rest remaining

/-- Embedding of `_monitor_process`: the returned pair of the success
flag (exit code equal to zero) and the transcript. -/
def monitorProcess (lines : List String) (remaining : String)
    (returncode : Int) : Bool × String :=
  (returncode == 0, pyJoin "\n" (monitorBuffer lines remaining))

/-! ## The dev-server output monitor, `monitor_output`

Inside `_start_application` a background thread repeatedly reads a
line from the server process; a nonempty line is echoed (stripped) and,
when the raw line contains the substring `http://`, an additional
running-at message is printed. There is no flag limiting how many times
the message is printed, and no browser is opened. The embedding records
the print calls as a trace of tagged actions. -/

/-- Console actions performed by the `monitor_output` thread. -/
inductive ServerAction where
  | echo (s : String)
  | announce (s : String)
deriving DecidableEq, Repr

/-- Actions performed by one iteration of the `monitor_output` loop on
the value one `readline` call returned. -/
def monitorOutputStep (output : String) : List ServerAction :=
  if output = "" then []
  else if pyContains "http://" output then
    [ServerAction.echo (pyStrip output),
     ServerAction.announce (pyStrip output)]
  else [ServerAction.echo (pyStrip output)]

/-- Action trace of the `monitor_output` loop over a sequence of reads. -/
def monitorOutputTrace (reads : List String) : List ServerAction :=
  reads.flatMap monitorOutputStep

/-- Recognises the running-at announcement action. -/
def isAnnounce : ServerAction → Bool
  | ServerAction.announce _ => true
  | ServerAction.echo _ => false

/-- Number of running-at announcements the monitor prints for a given
sequence of reads. -/
def announceCount (reads : List String) : Nat :=
  ((monitorOutputTrace reads).filter isAnnounce).length

/-- Bytes of the utf-8 encoding of one code point of a content string.
Configured contents are taken as well-formed unicode strings; a
content already holding a lone surrogate would fail at the encode call
itself, before decoding, outside this model. -/
def utf8EncodeChar (c : Char) : List Nat :=
  let n := c.toNat
  if n < 0x80 then [n]
  else if n < 0x800 then [0xC0 + n / 0x40, 0x80 + n % 0x40]
  else if n < 0x10000 then
    [0xE0 + n / 0x1000, 0x80 + (n / 0x40) % 0x40, 0x80 + n % 0x40]
  else
    [0xF0 + n / 0x40000, 0x80 + (n / 0x1000) % 0x40,
     0x80 + (n / 0x40) % 0x40, 0x80 + n % 0x40]

/-- Embedding of `content.encode(utf-8)`: the byte sequence of a
content string. A multi-byte character becomes several bytes, which
the unicode-escape codec will read back as individual latin-1 code
points: non-ascii text is mangled, exactly as in the program. -/
def utf8Encode (s : String) : List Nat :=
  s.data.flatMap utf8EncodeChar

/-- Code points of a string, for writing expected contents in
statements about decoded text. -/
def strCodes (s : String) : List Nat :=
  s.data.map Char.toNat

/-- Octal digit bytes, `0` to `7`. -/
def isOctalDigitByte (b : Nat) : Bool := 48 ≤ b && b ≤ 55

/-- Hexadecimal digit bytes, `0` to `9`, `A` to `F`, `a` to `f`. -/
def isHexDigitByte (b : Nat) : Bool :=
  (48 ≤ b && b ≤ 57) || (65 ≤ b && b ≤ 70) || (97 ≤ b && b ≤ 102)

/-- Value of a hexadecimal digit byte. -/
def hexDigitVal (b : Nat) : Nat :=
  if b ≤ 57 then b - 48 else if b ≤ 70 then b - 55 else b - 87

/-- Reads exactly the demanded number of hexadecimal digit bytes,
accumulating the value; `none` when a digit is missing, as when the
codec raises on a truncated `x`, `u` or `U` escape. -/
def parseHex : Nat → Nat → List Nat → Option Nat
  | acc, 0, _ => some acc
  | _, _ + 1, [] => none
  | acc, n + 1, b :: rest =>
      if isHexDigitByte b then parseHex (acc * 16 + hexDigitVal b) n rest
      else none

/-- Reads the bytes of a character name up to the closing brace;
`none` when the brace never comes (malformed `N`-escape). -/
def takeName : List Nat → Option (List Nat)
  | [] => none
  | b :: rest =>
      if b = 125 then some []
      else (takeName rest).map (fun nm => b :: nm)

/-- One escape sequence of the unicode-escape codec, applied to the
bytes after a backslash, following the CPython decoder case by case:
backslash-linefeed is a line continuation emitting nothing; the simple
escapes emit one code point; an octal escape takes up to three octal
digits greedily; `x`, `u` and `U` take exactly 2, 4 and 8 hexadecimal
digits, the `U` value limited to 0x10FFFF; `N` takes a brace-delimited
name resolved through `nameLookup`; any other byte keeps the backslash
and the byte. Returns the emitted code points and the number of bytes
consumed, or `none` where the codec raises. -/
def parseEscape (nameLookup : List Nat → Option Nat) :
    List Nat → Option (List Nat × Nat)
  | [] => none
  | e :: rest =>
      if e = 10 then some ([], 1)
      else if e = 92 then some ([92], 1)
      else if e = 39 then some ([39], 1)
      else if e = 34 then some ([34], 1)
      else if e = 98 then some ([8], 1)
      else if e = 102 then some ([12], 1)
      else if e = 116 then some ([9], 1)
      else if e = 110 then some ([10], 1)
      else if e = 114 then some ([13], 1)
      else if e = 118 then some ([11], 1)
      else if e = 97 then some ([7], 1)
      else if isOctalDigitByte e then
        match rest with
        | d2 :: rest2 =>
            if isOctalDigitByte d2 then
              match rest2 with
              | d3 :: _ =>
                  if isOctalDigitByte d3 then
                    some ([((e - 48) * 8 + (d2 - 48)) * 8 + (d3 - 48)], 3)
                  else some ([(e - 48) * 8 + (d2 - 48)], 2)
              | [] => some ([(e - 48) * 8 + (d2 - 48)], 2)
            else some ([e - 48], 1)
        | [] => some ([e - 48], 1)
      else if e = 120 then
        (parseHex 0 2 rest).map (fun v => ([v], 3))
      else if e = 117 then
        (parseHex 0 4 rest).map (fun v => ([v], 5))
      else if e = 85 then
        match parseHex 0 8 rest with
        | none => none
        | some v => if v ≤ 0x10FFFF then some ([v], 9) else none
      else if e = 78 then
        match rest with
        | 123 :: rest2 =>
            match takeName rest2 with
            | none => none
            | some nm =>
                match nameLookup nm with
                | none => none
                | some cp => some ([cp], 2 + nm.length + 1)
        | _ => none
      else some ([92, e], 1)

/-- Decoding loop of the unicode-escape codec over a byte list: a
non-backslash byte is its own code point (latin-1), a backslash
dispatches to `parseEscape` and continues after the consumed bytes,
and a trailing backslash (`parseEscape` of the empty list) is the
codec error. The fuel only bounds the recursion depth so the function
is structurally recursive; one byte is consumed per step, so fuel
equal to the input length never runs out, and the theorem below shows
the value is the same for every sufficient fuel. -/
def pyUnicodeEscapeAux (nameLookup : List Nat → Option Nat) :
    Nat → List Nat → Option (List Nat)
  | _, [] => some []
  | 0, _ :: _ => none
  | fuel + 1, b :: rest =>
      if b = 92 then
        match parseEscape nameLookup rest with
        | none => none
        | some pr =>
            (pyUnicodeEscapeAux nameLookup fuel (rest.drop pr.2)).map
              (fun out => pr.1 ++ out)
      else
        (pyUnicodeEscapeAux nameLookup fuel rest).map (fun out => b :: out)

/-- Embedding of `bytes.decode(unicode_escape)`: the decoding loop
with fuel fixed to the input length. -/
def pyUnicodeEscapeBytes (nameLookup : List Nat → Option Nat)
    (l : List Nat) : Option (List Nat) :=
  pyUnicodeEscapeAux nameLookup l.length l

theorem pyUnicodeEscapeAux_fuel (nameLookup : List Nat → Option Nat) :
    ∀ fuel fuel2 l, l.length ≤ fuel → l.length ≤ fuel2 →
      pyUnicodeEscapeAux nameLookup fuel l
        = pyUnicodeEscapeAux nameLookup fuel2 l := by
  intro fuel
  induction fuel with
  | zero =>
      intro fuel2 l h1 h2
      cases l with
      | nil => cases fuel2 <;> rfl
      | cons b rest => simp at h1
  | succ f ih =>
      intro fuel2 l h1 h2
      cases l with
      | nil => cases fuel2 <;> rfl
      | cons b rest =>
          cases fuel2 with
          | zero => simp at h2
          | succ f2 =>
              simp only [pyUnicodeEscapeAux]
              by_cases hb : b = 92
              · rw [if_pos hb, if_pos hb]
                cases hpe : parseEscape nameLookup rest with
                | none => rfl
                | some pr =>
                    have hlen : (rest.drop pr.2).length ≤ rest.length := by
                      rw [List.length_drop]
                      omega
                    simp only [List.length_cons] at h1 h2
                    dsimp only
                    rw [ih f2 (rest.drop pr.2) (by omega) (by omega)]
              · simp only [List.length_cons] at h1 h2
                rw [if_neg hb, if_neg hb, ih f2 rest (by omega) (by omega)]

/-- Embedding of `content.encode(utf-8).decode(unicode_escape)` at
line 103 of the script: `none` when the codec raises there. -/
def pyUnicodeEscape (nameLookup : List Nat → Option Nat)
    (content : String) : Option (List Nat) :=
  pyUnicodeEscapeBytes nameLookup (utf8Encode content)

/-- Embedding of `decoded_content.replace` with a semicolon pattern:
a newline code point is inserted after every semicolon. -/
def insertAfterSemicolons : List Nat → List Nat
  | [] => []
  | c :: rest =>
      if c = 59 then 59 :: 10 :: insertAfterSemicolons rest
      else c :: insertAfterSemicolons rest

/-- The text the script tries to write for a configured content:
escape decoding followed by the semicolon formatting pass; `none` when
the decode raises. -/
def formatContent (nameLookup : List Nat → Option Nat)
    (content : String) : Option (List Nat) :=
  (pyUnicodeEscape nameLookup content).map insertAfterSemicolons

/-- Code points the utf-8 encoder of the file write accepts: lone
surrogates (and values beyond the unicode range) are rejected when the
opened file is written. -/
def utf8Encodable (cp : Nat) : Bool :=
  cp < 0xD800 || (0xDFFF < cp && cp < 0x110000)

/-- Flat filesystem model: a map from absolute paths to file contents
as code-point sequences. -/
abbrev FileSystem := String → Option (List Nat)

/-- Writing a file: the path now maps to the new content and every
other path is unchanged (an existing file is overwritten). -/
def writeFile (fs : FileSystem) (path : String) (content : List Nat) :
    FileSystem :=
  fun q => if q = path then some content else fs q

/-- Path of an overlaid file below the project directory. -/
def overlayPath (projectDir relPath : String) : String :=
  projectDir ++ "/" ++ relPath

/-- Embedding of the `_merge_files` loop: entries are processed in
order. A decode error raises before the file is opened, so nothing is
written for that entry and the loop aborts. A decoded content with an
unencodable code point raises inside the write, after `open` has
created and truncated the file, leaving that file empty and aborting
the loop. Otherwise the formatted content is written and the loop
continues. Returns the final filesystem and whether an exception
escaped into `setup_project`. -/
def mergeFiles (nameLookup : List Nat → Option Nat) (projectDir : String) :
    List (String × String) → FileSystem → FileSystem × Bool
  | [], fs => (fs, false)
  | pr :: rest, fs =>
      match formatContent nameLookup pr.2 with
      | none => (fs, true)
      | some content =>
          if content.all utf8Encodable then
            mergeFiles nameLookup projectDir rest
              (writeFile fs (overlayPath projectDir pr.1) content)
          else (writeFile fs (overlayPath projectDir pr.1) [], true)

/-- Concrete checks of the codec embedding, matching the observable
behaviour of the CPython unicode-escape decoder on utf-8 bytes:
hexadecimal, octal and `u`-escapes decode to their code points, a
backslash-linefeed pair disappears, an unknown escape keeps the
backslash, non-ascii text is read back as its utf-8 bytes, a
`u`-escape may produce a lone surrogate, and a trailing backslash, a
truncated hexadecimal escape or an out-of-range `U`-escape are codec
errors. -/
theorem pyUnicodeEscape_codec_checks :
    pyUnicodeEscape (fun _ => none) "a\\x41b" = some [97, 65, 98]
      ∧ pyUnicodeEscape (fun _ => none) "\\101" = some [65]
      ∧ pyUnicodeEscape (fun _ => none) "\\" = none
      ∧ pyUnicodeEscape (fun _ => none) "\\x4" = none
      ∧ pyUnicodeEscape (fun _ => none) "é" = some [195, 169]
      ∧ pyUnicodeEscape (fun _ => none) "\\u00e9" = some [233]
      ∧ pyUnicodeEscape (fun _ => none) "a\\\nb" = some [97, 98]
      ∧ pyUnicodeEscape (fun _ => none) "\\q" = some [92, 113]
      ∧ pyUnicodeEscape (fun nm => if nm = [88] then some 9999 else none)
          "\\N{X}" = some [9999]
      ∧ pyUnicodeEscape (fun _ => none) "\\777" = some [511]
      ∧ pyUnicodeEscape (fun _ => none) "\\ud800" = some [55296]
      ∧ pyUnicodeEscape (fun _ => none) "\\U00110000" = none := by
  decide

/-! ## The error log, `_log_error` and `_run_command`

The constructor sets `self.error_log` to the relative path
`setup_errors.log` (not below the project directory), `_log_error`
opens it in append mode and writes one `ERROR:`-prefixed record ending
in a newline, and `_run_command` logs a message that itself contains a
newline when a spawn fails. -/

/-- Embedding of the `self.error_log` assignment in `__init__`. -/
def errorLogPath : String := "setup_errors.log"

/-- Embedding of `_log_error`: the log content after appending the
record for one message. -/
def logError (log message : String) : String :=
  log ++ ("ERROR: " ++ message ++ "\n")

/-- Message `_run_command` logs when the spawn raises. -/
def runCommandFailureMessage (command err : String) : String :=
  "Command failed: " ++ command ++ "\n" ++ "Error: " ++ err

/-- Number of newline characters in a string, counting the lines a
record contributes to the log file. -/
def lineCount (s : String) : Nat :=
  (s.data.filter (fun c => c == '\n')).length

/-! ## The orchestration, `setup_project` and the main block

External command outcomes are parameters: whether each spawn succeeded
and the exit code the monitor observed. The model tracks the decisions
the script makes from them: the phase results, whether the project
directory was created by `_merge_files`, whether a terminate request
was issued to the server process, how many error-log records were
written by `_run_command` spawn failures, and the process exit code. -/

/-- Environment of one run: the configuration values and the outcomes
of the external commands. -/
structure RunEnv where
  configExists : Bool
  projectType : String
  deps : List String
  templateSpawnOk : Bool
  templateExitCode : Int
  installSpawnOk : Bool
  installExitCode : Int
  serverSpawnOk : Bool
  serverInterrupted : Bool
  serverExitCode : Int
deriving DecidableEq, Repr

/-- Embedding of the `template_commands` dictionary lookup. -/
def templateCommand (projectDir projectType : String) : Option String :=
  if projectType = "React" then
    some ("npm create vite@latest " ++ projectDir ++ " -- --template react")
  else if projectType = "Vite" then
    some ("npm create vite@latest " ++ projectDir ++ " -- --template react-ts")
  else if projectType = "Flask" then
    some ("python -m venv " ++ projectDir ++ "/venv")
  else if projectType = "Express" then
    some "npm init -y"
  else none

/-- Embedding of `_create_template`: result and number of error-log
records written. An unknown project type fails without logging; a
spawn failure logs once and fails; otherwise the monitored result is
success exactly when the exit code is zero. -/
def createTemplate (env : RunEnv) (projectDir : String) : Bool × Nat :=
  match templateCommand projectDir env.projectType with
  | none => (false, 0)
  | some _ =>
      if env.templateSpawnOk then (env.templateExitCode == 0, 0)
      else (false, 1)

/-- Embedding of `_install_dependencies`: result, whether an install
command spawn was attempted, and the number of error-log records. The
phase returns success immediately when the dependency list is falsy;
no other condition is checked before spawning the install command. -/
def installDependencies (deps : List String) (spawnOk : Bool)
    (exitCode : Int) : Bool × Bool × Nat :=
  if deps.isEmpty then (true, false, 0)
  else if spawnOk then (exitCode == 0, true, 0)
  else (false, true, 1)

/-- Embedding of the launch-command selection in `_start_application`. -/
def serverCommand (projectDir projectType : String) : String :=
  if projectType = "Flask" then
    projectDir ++ "/venv/Scripts/python -m flask run"
  else if projectType = "React" ∨ projectType = "Vite" then
    "npm run dev"
  else "node index.js"

/-- Outcome of `_start_application`. -/
structure StartResult where
  result : Bool
  terminateRequested : Bool
  logs : Nat
deriving DecidableEq, Repr

/-- Embedding of `_start_application`: when the spawn fails the phase
logs once and fails; otherwise the phase waits, issues a terminate
request when a keyboard interrupt arrives during the wait, and returns
success in both the interrupted and the server-exited case. -/
def startApplication (spawnOk interrupted : Bool) : StartResult :=
  if spawnOk then
    if interrupted then ⟨true, true, 0⟩ else ⟨true, false, 0⟩
  else ⟨false, false, 1⟩

/-- Embedding of `setup_project`: template creation, then the file
merge (which creates the project directory), then dependency
installation, then application start, short-circuiting on failure.
Returns the overall result, whether the project directory was created,
whether a terminate request was issued, and the error-log records. -/
def setupProject (env : RunEnv) (projectDir : String) :
    Bool × Bool × Bool × Nat :=
  let t := createTemplate env projectDir
  if t.1 = false then (false, false, false, t.2)
  else
    let i := installDependencies env.deps env.installSpawnOk env.installExitCode
    if i.1 = false then (false, true, false, t.2 + i.2.2)
    else
      let a := startApplication env.serverSpawnOk env.serverInterrupted
      (a.result, true, a.terminateRequested, t.2 + i.2.2 + a.logs)

/-- Observable outcome of one whole run of the script. -/
structure RunResult where
  exitCode : Nat
  projectDirCreated : Bool
  terminateRequested : Bool
  errorLogWrites : Nat
deriving DecidableEq, Repr

/-- Embedding of the main block: when the configuration file is
missing the script prints a diagnostic and exits with code 1 before
constructing the `ProjectSetup` object; otherwise it runs
`setup_project` and exits 0 on success and 1 on failure. -/
def mainRun (env : RunEnv) (projectDir : String) : RunResult :=
  if env.configExists = false then ⟨1, false, false, 0⟩
  else
    let s := setupProject env projectDir
    ⟨if s.1 then 0 else 1, s.2.1, s.2.2.1, s.2.2.2⟩

/-! ## Overlay lemmas

The positive lemmas describe overlays in which every configured
content decodes and is encodable, so no exception interrupts the
loop. -/

theorem mergeFiles_ok_no_abort (nl : List Nat → Option Nat) (d : String)
    (files : List (String × String)) (fs : FileSystem)
    (hdec : ∀ pr ∈ files,
      ∃ c, formatContent nl pr.2 = some c ∧ c.all utf8Encodable = true) :
    (mergeFiles nl d files fs).2 = false := by
  induction files generalizing fs with
  | nil => rfl
  | cons hd rest ih =>
      obtain ⟨c, hc, he⟩ := hdec hd (List.mem_cons_self _ _)
      simp only [mergeFiles]
      rw [hc]
      dsimp only
      rw [if_pos he]
      exact ih _ (fun pr h => hdec pr (List.mem_cons_of_mem _ h))

theorem mergeFiles_ok_untouched (nl : List Nat → Option Nat) (d : String)
    (files : List (String × String)) (fs : FileSystem) (q : String)
    (hdec : ∀ pr ∈ files,
      ∃ c, formatContent nl pr.2 = some c ∧ c.all utf8Encodable = true)
    (hq : ∀ pr ∈ files, q ≠ overlayPath d pr.1) :
    (mergeFiles nl d files fs).1 q = fs q := by
  induction files generalizing fs with
  | nil => rfl
  | cons hd rest ih =>
      obtain ⟨c, hc, he⟩ := hdec hd (List.mem_cons_self _ _)
      simp only [mergeFiles]
      rw [hc]
      dsimp only
      rw [if_pos he]
      rw [ih _ (fun pr h => hdec pr (List.mem_cons_of_mem _ h))
        (fun pr h => hq pr (List.mem_cons_of_mem _ h))]
      unfold writeFile
      rw [if_neg (hq hd (List.mem_cons_self _ _))]

theorem mergeFiles_ok_lookup (nl : List Nat → Option Nat) (d : String)
    (files : List (String × String)) (fs : FileSystem)
    (hdec : ∀ pr ∈ files,
      ∃ c, formatContent nl pr.2 = some c ∧ c.all utf8Encodable = true)
    (hnd : (files.map (fun pr => overlayPath d pr.1)).Nodup)
    (pr : String × String) (hmem : pr ∈ files) :
    (mergeFiles nl d files fs).1 (overlayPath d pr.1)
      = formatContent nl pr.2 := by
  induction files generalizing fs with
  | nil => cases hmem
  | cons hd rest ih =>
      rw [List.map_cons, List.nodup_cons] at hnd
      obtain ⟨c, hc, he⟩ := hdec hd (List.mem_cons_self _ _)
      simp only [mergeFiles]
      rw [hc]
      dsimp only
      rw [if_pos he]
      rcases List.mem_cons.mp hmem with heq | hrest
      · subst heq
        rw [mergeFiles_ok_untouched nl d rest _ _
          (fun pr' h => hdec pr' (List.mem_cons_of_mem _ h))
          (fun pr' h' hcontra =>
            hnd.1 (by rw [hcontra]; exact List.mem_map_of_mem _ h'))]
        unfold writeFile
        rw [if_pos rfl, hc]
      · exact ih _ (fun pr' h => hdec pr' (List.mem_cons_of_mem _ h)) hnd.2
          hrest

/-! ## Transcript lemmas -/

/-- C1, counterexample: two lines both carrying an http url make the
`monitor_output` loop print the running-at announcement twice, so the
announcement is not limited to at most one per run; no run-scoped
url-opened flag exists in the code. -/
theorem c1_counterexample :
    ¬ announceCount
        ["Local: http://localhost:5173\n", "Local: http://localhost:5173\n"]
      ≤ 1 := by
  decide

/-- C1, amended: the `monitor_output` loop prints the running-at
announcement once per nonempty line containing the substring
`http://`; an input with k matching lines yields exactly k
announcements, with no flag limiting repetition. -/
theorem c1_amended (reads : List String) :
    announceCount reads
      = (reads.filter (fun l => !(l == "") && pyContains "http://" l)).length := by
  induction reads with
  | nil => rfl
  | cons l rest ih =>
      simp only [announceCount, monitorOutputTrace, List.flatMap_cons,
        List.filter_append, List.length_append, List.filter_cons]
      by_cases h1 : l = ""
      · simp [monitorOutputStep, h1, ← ih, announceCount, monitorOutputTrace]
      · by_cases h2 : pyContains "http://" l = true
        · simp [monitorOutputStep, h1, h2, isAnnounce, ← ih, announceCount,
            monitorOutputTrace]
          omega
        · simp [monitorOutputStep, h1, h2, isAnnounce, ← ih, announceCount,
            monitorOutputTrace]

/-! ## Claim C2: recognition shape of the ready announcement -/

/-- C3, counterexample: in a run where every phase succeeds and the
user interrupts the server wait, the server handle does receive a
terminate request, but the run is then reported as a success and the
process exits with code 0, not 1. -/
theorem c3_counterexample :
    (mainRun ⟨true, "React", [], true, 0, true, 0, true, true, 0⟩ "demo").terminateRequested
        = true
      ∧ (mainRun ⟨true, "React", [], true, 0, true, 0, true, true, 0⟩ "demo").exitCode
        = 0 := by
  decide

/-- C3, amended: a user interrupt during the server-run wait always
issues a terminate request on the server handle, but the interrupt is
caught inside the start phase, the phase returns success, and the
program reports overall success and exits with code 0. -/
theorem c3_amended (env : RunEnv) (d : String)
    (hc : env.configExists = true)
    (ht : (createTemplate env d).1 = true)
    (hi : (installDependencies env.deps env.installSpawnOk env.installExitCode).1 = true)
    (hs : env.serverSpawnOk = true)
    (hk : env.serverInterrupted = true) :
    (mainRun env d).terminateRequested = true ∧ (mainRun env d).exitCode = 0 := by
  simp [mainRun, setupProject, hc, ht, hi, startApplication, hs, hk]

/-- C3, witness for the amended theorem at a concrete interrupted run. -/
theorem c3_amended_witness :
    (mainRun ⟨true, "Vite", [], true, 0, true, 0, true, true, 0⟩ "demo").terminateRequested
        = true
      ∧ (mainRun ⟨true, "Vite", [], true, 0, true, 0, true, true, 0⟩ "demo").exitCode
        = 0 :=
  c3_amended ⟨true, "Vite", [], true, 0, true, 0, true, true, 0⟩ "demo"
    rfl (by decide) (by decide) rfl rfl

/-! ## Claim C4: the transcript versus the raw output -/

/-- C6, counterexample: a configuration with one entry whose content
is a backslash followed by `x` makes the unicode-escape codec raise on
the truncated hexadecimal escape, so the overlay aborts with an
exception and the configured path holds no file: fewer files than
entries exist after the overlay step. -/
theorem c6_counterexample :
    (mergeFiles (fun _ => none) "demo" [("src/App.jsx", "\\x")]
        (fun _ => none)).2 = true
      ∧ (mergeFiles (fun _ => none) "demo" [("src/App.jsx", "\\x")]
          (fun _ => none)).1 (overlayPath "demo" "src/App.jsx") = none := by
  decide

/-- C6, amended: for every configuration whose file mapping has
distinct target paths (dictionary keys are unique) and all of whose
contents the unicode-escape codec decodes into encodable text, the
overlay finishes without an exception, each configured relative path
below the project directory holds exactly the decoded,
semicolon-formatted content, any existing file there having been
overwritten, and every other path of the filesystem is unchanged;
hence exactly as many files are overlaid as the mapping has entries.
A configuration with an undecodable content instead raises at its
first failing entry and leaves the overlay partial. Directory creation
is implicit in the flat filesystem model. -/
theorem c6_overlay (nl : List Nat → Option Nat) (d : String)
    (files : List (String × String)) (fs : FileSystem)
    (hnd : (files.map (fun pr => overlayPath d pr.1)).Nodup)
    (hdec : ∀ pr ∈ files,
      ∃ c, formatContent nl pr.2 = some c ∧ c.all utf8Encodable = true) :
    (mergeFiles nl d files fs).2 = false
      ∧ (∀ pr ∈ files,
          (mergeFiles nl d files fs).1 (overlayPath d pr.1)
            = formatContent nl pr.2)
      ∧ (∀ q, (∀ pr ∈ files, q ≠ overlayPath d pr.1) →
          (mergeFiles nl d files fs).1 q = fs q) :=
  ⟨mergeFiles_ok_no_abort nl d files fs hdec,
   fun pr hmem => mergeFiles_ok_lookup nl d files fs hdec hnd pr hmem,
   fun q hq => mergeFiles_ok_untouched nl d files fs q hdec hq⟩

/-- C6, witness: the scenario configuration writes `src/App.jsx` below
the project directory with the semicolon-formatted content and no
exception. -/
theorem c6_overlay_witness :
    (mergeFiles (fun _ => none) "demo" [("src/App.jsx", "console.log(1);")]
        (fun _ => none)).2 = false
      ∧ (mergeFiles (fun _ => none) "demo"
          [("src/App.jsx", "console.log(1);")] (fun _ => none)).1
          (overlayPath "demo" "src/App.jsx")
        = formatContent (fun _ => none) "console.log(1);" := by
  have h := c6_overlay (fun _ => none) "demo"
    [("src/App.jsx", "console.log(1);")] (fun _ => none)
    (by decide)
    (by
      intro pr hmem
      have hpr : pr = ("src/App.jsx", "console.log(1);") := by
        simpa using hmem
      rw [hpr]
      exact ⟨strCodes "console.log(1);\n", by decide, by decide⟩)
  exact ⟨h.1, h.2.1 ("src/App.jsx", "console.log(1);") (by decide)⟩

/-! ## Claim C5: monitor success is exit code zero -/

/-- C5: the bounded monitor reports success exactly when the child
exit code is zero, for every output and every exit code. -/
theorem c5_success_iff_exit_zero (lines : List String) (remaining : String)
    (rc : Int) :
    (monitorProcess lines remaining rc).1 = true ↔ rc = 0 := by
  simp [monitorProcess]

/-! ## Claim C7: when the install phase is skipped -/

/-- C7, counterexample: with a nonempty dependency list an install
command spawn is always attempted; the code consults no
installed-dependencies marker, so a run with such a marker present and
one declared dependency still spawns the installer (and reports the
phase failed when the spawn fails). -/
theorem c7_counterexample :
    (installDependencies ["react"] true 0).2.1 = true
      ∧ (installDependencies ["react"] false 0).1 = false := by
  decide

/-- C7, amended: the install phase is skipped, reported as success
with no spawn attempt and no log record, exactly when the
configuration declares no dependencies; no package-cache marker is
consulted. -/
theorem c7_amended (deps : List String) (spawnOk : Bool) (ec : Int) :
    installDependencies deps spawnOk ec = (true, false, 0) ↔ deps = [] := by
  cases deps with
  | nil => simp [installDependencies]
  | cons d rest => cases spawnOk <;> simp [installDependencies]

/-! ## Claim C8: the error log -/

/-- C8, counterexample: the error log lives at the relative path
`setup_errors.log`, not below the project directory, and the record
logged for a failed spawn spans two lines because the message itself
contains a newline. -/
theorem c8_counterexample :
    errorLogPath ≠ "demo" ++ "/" ++ "setup_errors.log"
      ∧ lineCount
          (logError "" (runCommandFailureMessage "npm install react" "spawn failed"))
        = 2 := by
  decide

theorem lineCount_append (a b : String) :
    lineCount (a ++ b) = lineCount a + lineCount b := by
  simp [lineCount, strData_append, List.filter_append]

/-- C8, amended: the error log path is `setup_errors.log` in the
working directory; logging appends, leaving the previous content as a
prefix, and one logged failure adds one more newline-terminated record
whose line count is one plus the number of newlines in the message. -/
theorem c8_amended (log msg : String) :
    errorLogPath = "setup_errors.log"
      ∧ log.data <+: (logError log msg).data
      ∧ lineCount (logError log msg) = lineCount log + (lineCount msg + 1) := by
  refine ⟨rfl, ?_, ?_⟩
  · rw [show logError log msg = log ++ ("ERROR: " ++ msg ++ "\n") from rfl,
      strData_append]
    exact List.prefix_append _ _
  · rw [show logError log msg = log ++ ("ERROR: " ++ msg ++ "\n") from rfl]
    rw [lineCount_append, lineCount_append, lineCount_append]
    have h1 : lineCount "ERROR: " = 0 := rfl
    have h2 : lineCount "\n" = 1 := rfl
    rw [h1, h2]
    omega

/-! ## Claim C9: missing configuration file -/

/-- C9: when the configuration file is missing the run exits with
code 1 before any side effect: the project directory is not created,
no terminate request is issued and no error-log record is written. -/
theorem c9_no_side_effects (env : RunEnv) (d : String)
    (h : env.configExists = false) :
    mainRun env d = ⟨1, false, false, 0⟩ := by
  simp [mainRun, h]

/-- C9, witness at a concrete run with the configuration missing. -/
theorem c9_no_side_effects_witness :
    mainRun ⟨false, "React", [], true, 0, true, 0, true, false, 0⟩ "demo"
      = ⟨1, false, false, 0⟩ :=
  c9_no_side_effects ⟨false, "React", [], true, 0, true, 0, true, false, 0⟩ "demo" rfl

/-! ## Claim C10: server spawn success means overall success -/

/-- C10: once the template, merge and install phases succeeded, a
successful dev-server spawn makes the start phase return success and
the program report overall success and exit with code 0, whatever the
server exit code and whether or not the wait is interrupted. -/
theorem c10_exit_zero (env : RunEnv) (d : String)
    (hc : env.configExists = true)
    (ht : (createTemplate env d).1 = true)
    (hi : (installDependencies env.deps env.installSpawnOk env.installExitCode).1 = true)
    (hs : env.serverSpawnOk = true) :
    (startApplication env.serverSpawnOk env.serverInterrupted).result = true
      ∧ (mainRun env d).exitCode = 0 := by
  cases hk : env.serverInterrupted <;>
    simp [mainRun, setupProject, hc, ht, hi, startApplication, hs, hk]

/-- C10, witness: a run whose dev server exits immediately with a
non-zero code still ends with exit code 0. -/
theorem c10_exit_zero_witness :
    (startApplication true false).result = true
      ∧ (mainRun ⟨true, "React", [], true, 0, true, 0, true, false, 1⟩ "demo").exitCode
        = 0 :=
  c10_exit_zero ⟨true, "React", [], true, 0, true, 0, true, false, 1⟩ "demo"
    rfl (by decide) (by decide) rfl

end Trial
